import Mathlib

/-!
Verification of the ts-result-monad core: the Result container, its
combinator algebra, the typed error hierarchy with causal-chain stack
rendering, and the retry/combine helpers. The implementation files
(src/result.ts, src/errors.ts, src/utils.ts) are not present among the
sources, so the definitions below are modelled from the specification,
corroborated by the error test suite and the README API tables that are
present.
-/

namespace TsResultMonad

/-- Modelled from the spec: the misuse (programming) errors raised when the
value payload of a failed Outcome or the error payload of a successful
Outcome is accessed. They form a type of their own, distinct from the
domain error taxonomy, and are thrown (carried on the Except error side),
never returned as Failures. The accessor code of src/result.ts is missing
from the sources. -/
inductive AccessError where
  | valueOnFailure
  | errorOnSuccess
  deriving DecidableEq, Repr

/-- Modelled from the spec: the Result container of src/result.ts (missing
from the sources) - an immutable tagged union over Success(value) and
Failure(error), created only via the constructors ok and fail. -/
inductive Result (T E : Type) where
  | ok (v : T)
  | fail (e : E)
  deriving DecidableEq, Repr

namespace Result

variable {T U V E E2 : Type}

/-- Modelled from the spec: the isSuccess discriminant property. -/
def isSuccess : Result T E → Bool
  | .ok _ => true
  | .fail _ => false

/-- Modelled from the spec: the isFailure discriminant property. -/
def isFailure : Result T E → Bool
  | .ok _ => false
  | .fail _ => true

/-- Modelled from the spec: the value accessor; on a success it yields the
wrapped value, on a failure it throws a misuse error to the caller
(modelled as the Except error side). -/
def value : Result T E → Except AccessError T
  | .ok v => .ok v
  | .fail _ => .error .valueOnFailure

/-- Modelled from the spec: the error accessor; on a failure it yields the
wrapped error, on a success it throws a misuse error to the caller. -/
def error : Result T E → Except AccessError E
  | .ok _ => .error .errorOnSuccess
  | .fail e => .ok e

/-- Modelled from the spec: map transforms the success value and passes a
failure through unchanged. -/
def map (r : Result T E) (fn : T → U) : Result U E :=
  match r with
  | .ok v => .ok (fn v)
  | .fail e => .fail e

/-- Modelled from the spec: flatMap is monadic bind - on success it returns
fn applied to the value directly, on failure it short-circuits. -/
def flatMap (r : Result T E) (fn : T → Result U E) : Result U E :=
  match r with
  | .ok v => fn v
  | .fail e => .fail e

/-- Modelled from the spec: mapError transforms the error of a failure and
leaves a success untouched. -/
def mapError (r : Result T E) (fn : E → E2) : Result T E2 :=
  match r with
  | .ok v => .ok v
  | .fail e => .fail (fn e)

/-- Modelled from the spec: tap runs a side-effecting callback on the value
of a success and returns the Result unchanged. -/
def tap (r : Result T E) (fn : T → Unit) : Result T E :=
  match r with
  | .ok v =>
    let _ := fn v
    .ok v
  | .fail e => .fail e

/-- Modelled from the spec: tapError runs a side-effecting callback on the
error of a failure and returns the Result unchanged. -/
def tapError (r : Result T E) (fn : E → Unit) : Result T E :=
  match r with
  | .ok v => .ok v
  | .fail e =>
    let _ := fn e
    .fail e

/-- Modelled from the spec: recover replaces a failure with fn applied to
the error and passes a success through. -/
def recover (r : Result T E) (fn : E → Result T E) : Result T E :=
  match r with
  | .ok v => .ok v
  | .fail e => fn e

end Result

variable {T U V E E2 : Type}

/-- Modelled from the spec: combineResults of src/utils.ts (missing from the
sources) - walks the Outcomes in order, short-circuits on the first failure
with that failure, and otherwise collects the success values in input
order. -/
def combineResults : List (Result T E) → Result (List T) E
  | [] => .ok []
  | r :: rest =>
    match r with
    | .fail e => .fail e
    | .ok v =>
      match combineResults rest with
      | .fail e => .fail e
      | .ok vs => .ok (v :: vs)

/-- The success values of a list of Outcomes, in input order. -/
def successValues : List (Result T E) → List T
  | [] => []
  | .ok v :: rest => v :: successValues rest
  | .fail _ :: rest => successValues rest

/-- Modelled from the spec: the recursion inside retry of src/utils.ts
(missing from the sources). The async operation is modelled as an
attempt-indexed family of Outcomes; the returned triple is the final
Outcome, the number of invocations performed, and the list of backoff
delays slept before each re-attempt. A success stops the recursion at
once; any failure triggers a retry (the error is never inspected) with the
delay doubling, until the budget of remaining re-attempts is spent, at
which point the last failure is returned unchanged. -/
def retryAux (fn : Nat → Result T E) : Nat → Nat → Nat → Result T E × Nat × List Nat
  | attempt, remaining, delayMs =>
    match fn attempt with
    | .ok v => (.ok v, 1, [])
    | .fail e =>
      match remaining with
      | 0 => (.fail e, 1, [])
      | r + 1 =>
        let rest := retryAux fn (attempt + 1) r (delayMs * 2)
        (rest.1, rest.2.1 + 1, delayMs :: rest.2.2)

/-- Modelled from the spec: retry(fn, retries, initialDelayMs) of
src/utils.ts (missing from the sources) - one initial attempt plus up to
`retries` additional attempts with exponential backoff, base 2, starting
from initialDelayMs. -/
def retry (fn : Nat → Result T E) (retries : Nat) (initialDelayMs : Nat) :
    Result T E × Nat × List Nat :=
  retryAux fn 0 retries initialDelayMs

lemma delays_double (delayMs r : Nat) :
    delayMs :: (List.range r).map (fun i => delayMs * 2 * 2 ^ i) =
      (List.range (r + 1)).map (fun i => delayMs * 2 ^ i) := by
  rw [List.range_succ_eq_map, List.map_cons, List.map_map]
  refine congrArg₂ _ (by rw [pow_zero, Nat.mul_one]) ?_
  refine List.map_congr_left (fun i _ => ?_)
  simp only [Function.comp_apply, pow_succ]
  ring

lemma retryAux_all_fail (fn : Nat → Result T E)
    (hf : ∀ i, (fn i).isFailure = true) :
    ∀ (remaining attempt delayMs : Nat),
      retryAux fn attempt remaining delayMs =
        (fn (attempt + remaining), remaining + 1,
          (List.range remaining).map (fun i => delayMs * 2 ^ i)) := by
  intro remaining
  induction remaining with
  | zero =>
    intro attempt delayMs
    have h := hf attempt
    cases hfa : fn attempt with
    | ok v => rw [hfa] at h; simp [Result.isFailure] at h
    | fail e => simp [retryAux, hfa]
  | succ r ih =>
    intro attempt delayMs
    have h := hf attempt
    cases hfa : fn attempt with
    | ok v => rw [hfa] at h; simp [Result.isFailure] at h
    | fail e =>
      simp only [retryAux, hfa, ih (attempt + 1) (delayMs * 2)]
      rw [show attempt + 1 + r = attempt + (r + 1) from by omega, delays_double]

lemma retryAux_first_success (fn : Nat → Result T E) (v : T) :
    ∀ (k remaining attempt delayMs : Nat), k ≤ remaining →
      (∀ i, i < k → (fn (attempt + i)).isFailure = true) →
      fn (attempt + k) = .ok v →
      retryAux fn attempt remaining delayMs =
        (.ok v, k + 1, (List.range k).map (fun i => delayMs * 2 ^ i)) := by
  intro k
  induction k with
  | zero =>
    intro remaining attempt delayMs _ _ hk
    rw [Nat.add_zero] at hk
    cases remaining <;> simp [retryAux, hk]
  | succ s ih =>
    intro remaining attempt delayMs hle hfail hk
    have h0 : (fn attempt).isFailure = true := by
      have := hfail 0 (Nat.succ_pos s)
      rwa [Nat.add_zero] at this
    cases hfa : fn attempt with
    | ok w => rw [hfa] at h0; simp [Result.isFailure] at h0
    | fail e =>
      obtain ⟨r, rfl⟩ : ∃ r, remaining = r + 1 := by
        cases remaining with
        | zero => exact absurd hle (by omega)
        | succ r => exact ⟨r, rfl⟩
      have hfail1 : ∀ i, i < s → (fn (attempt + 1 + i)).isFailure = true := by
        intro i hi
        have := hfail (i + 1) (by omega)
        rwa [show attempt + (i + 1) = attempt + 1 + i by omega] at this
      have hk1 : fn (attempt + 1 + s) = .ok v := by
        rwa [show attempt + 1 + s = attempt + (s + 1) by omega]
      simp only [retryAux, hfa, ih r (attempt + 1) (delayMs * 2) (by omega) hfail1 hk1]
      rw [delays_double]

/-- C2: on an operation that always fails, retry performs exactly
retries + 1 invocations (one initial attempt plus `retries` additional
ones) and returns the failure of the last attempt itself, unchanged; the
backoff delays before attempts 2, 3, ... double each time starting from
initialDelayMs; any failure is retried without the error being inspected
(the operation and its errors are arbitrary); and if some attempt succeeds
its success is returned with no further invocations. -/
theorem c2_retry_attempts_and_backoff (T E : Type) :
    (∀ (fn : Nat → Result T E) (retries initialDelayMs : Nat),
      (∀ i, (fn i).isFailure = true) →
      retry fn retries initialDelayMs =
        (fn retries, retries + 1,
          (List.range retries).map (fun i => initialDelayMs * 2 ^ i))) ∧
    (∀ (fn : Nat → Result T E) (retries initialDelayMs k : Nat) (v : T),
      k ≤ retries →
      (∀ i, i < k → (fn i).isFailure = true) →
      fn k = .ok v →
      retry fn retries initialDelayMs =
        (.ok v, k + 1,
          (List.range k).map (fun i => initialDelayMs * 2 ^ i))) := by
  constructor
  · intro fn retries initialDelayMs hf
    have h := retryAux_all_fail fn hf retries 0 initialDelayMs
    rwa [Nat.zero_add] at h
  · intro fn retries initialDelayMs k v hle hfail hk
    exact retryAux_first_success fn v k retries 0 initialDelayMs hle
      (by intro i hi; rw [Nat.zero_add]; exact hfail i hi)
      (by rwa [Nat.zero_add])

/-- Witness for C2: with retries = 3 on an always-failing operation, retry
performs exactly 4 invocations, returns the 4th failure unchanged, and the
delays before attempts 2, 3, 4 are 100, 200, 400. -/
theorem c2_retry_attempts_and_backoff_witness :
    retry (fun i => (Result.fail (toString i) : Result Nat String)) 3 100 =
      (Result.fail "3", 4, [100, 200, 400]) := by
  have h := (c2_retry_attempts_and_backoff Nat String).1
    (fun i => (Result.fail (toString i) : Result Nat String)) 3 100
    (fun i => rfl)
  exact h.trans (by decide)

/-- C3: combineResults of the empty list is a success with the empty list;
when every element is a success it returns ok of all success values in
input order; and when some element fails it returns fail carrying exactly
the error of the first failing element in iteration order. -/
theorem c3_combine_results (T E : Type) :
    (combineResults ([] : List (Result T E)) = Result.ok []) ∧
    (∀ rs : List (Result T E), (∀ r ∈ rs, r.isSuccess = true) →
      combineResults rs = Result.ok (successValues rs)) ∧
    (∀ (pre post : List (Result T E)) (e : E),
      (∀ r ∈ pre, r.isSuccess = true) →
      combineResults (pre ++ Result.fail e :: post) = Result.fail e) := by
  refine ⟨rfl, ?_, ?_⟩
  · intro rs h
    induction rs with
    | nil => rfl
    | cons r rest ih =>
      cases r with
      | fail e =>
        have := h (Result.fail e) (List.mem_cons_self _ _)
        simp [Result.isSuccess] at this
      | ok v =>
        have hrest := ih (fun r hr => h r (List.mem_cons_of_mem _ hr))
        simp [combineResults, successValues, hrest]
  · intro pre post e h
    induction pre with
    | nil => rfl
    | cons r rest ih =>
      cases r with
      | fail f =>
        have := h (Result.fail f) (List.mem_cons_self _ _)
        simp [Result.isSuccess] at this
      | ok v =>
        have hrest := ih (fun r hr => h r (List.mem_cons_of_mem _ hr))
        simp [combineResults, hrest]

/-- Witness for C3: combineResults of ok 1, fail E, ok 3 is the failure
with error E, and the all-success hypothesis holds for the prefix. -/
theorem c3_combine_results_witness :
    combineResults [Result.ok 1, (Result.fail "E" : Result Nat String), Result.ok 3] =
      Result.fail "E" := by
  have h := (c3_combine_results Nat String).2.2 [Result.ok 1] [Result.ok 3] "E"
    (by decide)
  exact h

/-- C1: for every v, Result.ok v is a success whose value accessor returns
exactly v and whose error accessor raises a misuse error; for every e,
Result.fail e is a failure whose error accessor returns exactly e and whose
value accessor raises a misuse error; the misuse errors are thrown (the
Except error side, a type distinct from the domain error taxonomy), never
returned as Failures. -/
theorem c1_constructors_and_accessors (T E : Type) (v : T) (e : E) :
    (Result.ok v : Result T E).isSuccess = true ∧
    (Result.ok v : Result T E).value = Except.ok v ∧
    (Result.ok v : Result T E).error = Except.error AccessError.errorOnSuccess ∧
    (Result.fail e : Result T E).isFailure = true ∧
    (Result.fail e : Result T E).error = Except.ok e ∧
    (Result.fail e : Result T E).value = Except.error AccessError.valueOnFailure :=
  ⟨rfl, rfl, rfl, rfl, rfl, rfl⟩

/-- C5: the wrong-state identity law - map, flatMap and tap leave a failure
unchanged whatever the callback, and recover, mapError and tapError leave a
success unchanged whatever the callback. -/
theorem c5_wrong_state_identity (T U E E2 : Type) (v : T) (e : E)
    (fn : T → U) (ff : T → Result U E) (ft : T → Unit)
    (gr : E → Result T E) (gm : E → E2) (gt : E → Unit) :
    (Result.fail e : Result T E).map fn = Result.fail e ∧
    (Result.fail e : Result T E).flatMap ff = Result.fail e ∧
    (Result.fail e : Result T E).tap ft = Result.fail e ∧
    (Result.ok v : Result T E).recover gr = Result.ok v ∧
    (Result.ok v : Result T E).mapError gm = (Result.ok v : Result T E2) ∧
    (Result.ok v : Result T E).tapError gt = Result.ok v :=
  ⟨rfl, rfl, rfl, rfl, rfl, rfl⟩

/-- C6: flatMap associativity - chaining a.flatMap(f).flatMap(g) equals
a.flatMap(x => f(x).flatMap(g)), whether a is a success or a failure. -/
theorem c6_flatMap_assoc (T U V E : Type) (a : Result T E)
    (f : T → Result U E) (g : U → Result V E) :
    (a.flatMap f).flatMap g = a.flatMap (fun x => (f x).flatMap g) := by
  cases a <;> rfl

/-- Modelled from the spec: the closed set of error kinds of src/errors.ts
(missing from the sources), together with the platform native Error root
of the class hierarchy. -/
inductive EKind where
  | error
  | resultError
  | validationError
  | notFoundError
  | unauthorizedError
  | businessRuleError
  | technicalError
  | timeoutError
  | concurrencyError
  | cancellationError
  deriving DecidableEq, Repr, Fintype

/-- Modelled from the spec: the concrete class name of each error kind, the
value stored in the name field on construction. -/
def EKind.className : EKind → String
  | .error => "Error"
  | .resultError => "ResultError"
  | .validationError => "ValidationError"
  | .notFoundError => "NotFoundError"
  | .unauthorizedError => "UnauthorizedError"
  | .businessRuleError => "BusinessRuleError"
  | .technicalError => "TechnicalError"
  | .timeoutError => "TimeoutError"
  | .concurrencyError => "ConcurrencyError"
  | .cancellationError => "CancellationError"

/-- Modelled from the spec: the direct superclass of each error kind -
ResultError extends the native Error, TimeoutError and CancellationError
extend TechnicalError, and every other kind extends ResultError. -/
def EKind.parentK : EKind → Option EKind
  | .error => none
  | .resultError => some .error
  | .validationError => some .resultError
  | .notFoundError => some .resultError
  | .unauthorizedError => some .resultError
  | .businessRuleError => some .resultError
  | .technicalError => some .resultError
  | .timeoutError => some .technicalError
  | .concurrencyError => some .resultError
  | .cancellationError => some .technicalError

/-- The superclass chain of a kind, itself included, read off by walking
parentK with enough fuel to exhaust the finite hierarchy. -/
def EKind.ancestorsAux : Nat → EKind → List EKind
  | 0, k => [k]
  | n + 1, k =>
    k :: (match k.parentK with
      | none => []
      | some p => EKind.ancestorsAux n p)

/-- The superclass chain of a kind, itself included. -/
def EKind.ancestors (k : EKind) : List EKind :=
  EKind.ancestorsAux 9 k

/-- The instanceof check of the class hierarchy: k.isA t holds when t is k
itself or one of its superclasses. -/
def EKind.isA (k t : EKind) : Bool :=
  decide (t ∈ k.ancestors)

/-- Modelled from the spec: an error object of src/errors.ts (missing from
the sources) - a kind tag, a message, an optional cause stored by
reference (forming the finite causal chain), and for CancellationError an
optional operationId. -/
inductive ErrObj where
  | mk (kind : EKind) (message : String) (cause : Option ErrObj)
      (operationId : Option String)

/-- The kind tag of an error object. -/
def ErrObj.kind : ErrObj → EKind
  | .mk k _ _ _ => k

/-- The message of an error object. -/
def ErrObj.message : ErrObj → String
  | .mk _ m _ _ => m

/-- The cause slot of an error object. -/
def ErrObj.cause : ErrObj → Option ErrObj
  | .mk _ _ c _ => c

/-- The operationId slot of an error object. -/
def ErrObj.operationId : ErrObj → Option String
  | .mk _ _ _ o => o

/-- The name property: the concrete class name of the kind tag. -/
def ErrObj.name (e : ErrObj) : String :=
  e.kind.className

/-- The same error object with its cause slot replaced. -/
def ErrObj.withCause : ErrObj → Option ErrObj → ErrObj
  | .mk k m _ o, c => .mk k m c o

/-- Modelled from the spec: the rendered stack trace of src/errors.ts
(missing from the sources) - the own trace line, and when a cause is
present a delimited Caused by section holding the cause trace
recursively. -/
def ErrObj.stack : ErrObj → String
  | .mk k m none _ => k.className ++ ": " ++ m
  | .mk k m (some c) _ =>
    (k.className ++ ": " ++ m) ++ ("\nCaused by: " ++ ErrObj.stack c)

/-- The messages of the causal chain of an error, in nesting order from
the error itself down to the root cause. -/
def chainMessages : ErrObj → List String
  | .mk _ m none _ => [m]
  | .mk _ m (some c) _ => m :: chainMessages c

/-- Modelled from the spec: the ResultError constructor. -/
def mkResultError (message : String) (cause : Option ErrObj) : ErrObj :=
  .mk .resultError message cause none

/-- Modelled from the spec: the ValidationError constructor. -/
def mkValidationError (detail : String) (cause : Option ErrObj) : ErrObj :=
  .mk .validationError ("Validation Error: " ++ detail) cause none

/-- Modelled from the spec: the NotFoundError constructor. -/
def mkNotFoundError (resource : String) (id : Option String)
    (cause : Option ErrObj) : ErrObj :=
  .mk .notFoundError
    (match id with
      | none => "Not Found: " ++ resource ++ " could not be found"
      | some i =>
        "Not Found: " ++ resource ++ " with id \x27" ++ i ++
          "\x27 could not be found")
    cause none

/-- Modelled from the spec: the UnauthorizedError constructor. -/
def mkUnauthorizedError (detail : Option String) (cause : Option ErrObj) :
    ErrObj :=
  .mk .unauthorizedError
    ("Unauthorized: " ++
      (match detail with
        | none => "You are not authorized to perform this operation"
        | some d => d))
    cause none

/-- Modelled from the spec: the BusinessRuleError constructor. -/
def mkBusinessRuleError (detail : String) (cause : Option ErrObj) : ErrObj :=
  .mk .businessRuleError ("Business Rule Violation: " ++ detail) cause none

/-- Modelled from the spec: the TechnicalError constructor. -/
def mkTechnicalError (detail : String) (cause : Option ErrObj) : ErrObj :=
  .mk .technicalError ("Technical Error: " ++ detail) cause none

/-- Modelled from the spec: the TimeoutError constructor. -/
def mkTimeoutError (operationName : String) (timeoutMs : Nat)
    (cause : Option ErrObj) : ErrObj :=
  .mk .timeoutError
    ("Technical Error: Operation \x27" ++ operationName ++
      "\x27 timed out after " ++ toString timeoutMs ++ "ms")
    cause none

/-- Modelled from the spec: the ConcurrencyError constructor. -/
def mkConcurrencyError (resource : String) (id : Option String)
    (cause : Option ErrObj) : ErrObj :=
  .mk .concurrencyError
    (match id with
      | none =>
        "Concurrency Error: " ++ resource ++ " was modified by another process"
      | some i =>
        "Concurrency Error: " ++ resource ++ " with id \x27" ++ i ++
          "\x27 was modified by another process")
    cause none

/-- Modelled from the spec: the CancellationError constructor. -/
def mkCancellationError (detail : Option String) (operationId : Option String)
    (cause : Option ErrObj) : ErrObj :=
  .mk .cancellationError
    ("Cancellation: " ++
      (match detail with
        | none => "Operation was cancelled"
        | some d => d))
    cause operationId

/-- A generic platform native error wrapped at the root of a causal
chain. -/
def mkNativeError (message : String) : ErrObj :=
  .mk .error message none none

/-- Modelled from the spec: the serializable projection produced by
toJSON - either success with the value, or failure with only the name and
message of the immediate error. -/
inductive ResultJSON (T : Type) where
  | success (value : T)
  | failure (name message : String)
  deriving DecidableEq

/-- Modelled from the spec: toJSON of src/result.ts (missing from the
sources); the failure branch reads only the name and message properties of
the error. -/
def Result.toJSON {T : Type} : Result T ErrObj → ResultJSON T
  | .ok v => .success v
  | .fail e => .failure e.name e.message

/-- The messages ms occur, in order and pairwise non-overlapping, inside
the character list s. -/
def appearsInOrder : List Char → List (List Char) → Prop
  | _, [] => True
  | s, m :: ms => ∃ u v, s = u ++ m ++ v ∧ appearsInOrder v ms

lemma appearsInOrder_append_left (pre : List Char) {s : List Char}
    {ms : List (List Char)} (h : appearsInOrder s ms) :
    appearsInOrder (pre ++ s) ms := by
  cases ms with
  | nil => trivial
  | cons m ms =>
    obtain ⟨u, w, hs, hrest⟩ := h
    exact ⟨pre ++ u, w, by simp [hs], hrest⟩

lemma stack_contains_chain :
    ∀ e : ErrObj, appearsInOrder e.stack.data ((chainMessages e).map String.data)
  | .mk k m none o => by
    refine ⟨(k.className ++ ": ").data, [], ?_, trivial⟩
    simp [ErrObj.stack, chainMessages, String.data_append]
  | .mk k m (some c) o => by
    have ih := stack_contains_chain c
    refine ⟨(k.className ++ ": ").data, ("\nCaused by: " ++ c.stack).data, ?_, ?_⟩
    · simp [ErrObj.stack, chainMessages, String.data_append]
    · rw [String.data_append]
      exact appearsInOrder_append_left _ ih

lemma className_data_ne_nil (k : EKind) : (k.className).data ≠ [] := by
  cases k <;> decide

lemma stack_data_split (e : ErrObj) :
    ∃ rest : List Char, e.stack.data = (e.kind.className).data ++ rest := by
  cases e with
  | mk k m c o =>
    cases c with
    | none =>
      exact ⟨(": " ++ m).data, by
        simp [ErrObj.stack, ErrObj.kind, String.data_append]⟩
    | some d =>
      exact ⟨(": " ++ m ++ ("\nCaused by: " ++ ErrObj.stack d)).data, by
        simp [ErrObj.stack, ErrObj.kind, String.data_append]⟩

lemma stack_ne_empty (e : ErrObj) : e.stack ≠ "" := by
  intro h
  obtain ⟨rest, hr⟩ := stack_data_split e
  have hd : e.stack.data = [] := by rw [h]
  rw [hr] at hd
  exact className_data_ne_nil e.kind (List.append_eq_nil.mp hd).1

/-- C4: toJSON of a success is the success projection carrying the value;
toJSON of a failure carries only the name and message of the immediate
error; and in either case the cause slot and the rest of the cause chain
never influence the output - replacing the cause of the error by anything
leaves toJSON unchanged. -/
theorem c4_toJSON_shape (T : Type) (v : T) (e : ErrObj) (c : Option ErrObj) :
    Result.toJSON (Result.ok v : Result T ErrObj) = ResultJSON.success v ∧
    Result.toJSON (Result.fail e : Result T ErrObj) =
      ResultJSON.failure e.name e.message ∧
    Result.toJSON (Result.fail (e.withCause c) : Result T ErrObj) =
      Result.toJSON (Result.fail (e.withCause none) : Result T ErrObj) := by
  refine ⟨rfl, ?_, ?_⟩
  · cases e
    rfl
  · cases e
    rfl

/-- C7: the cause of every constructed error is the very cause object
given; when a cause is present, the rendered stack is the own trace line
followed by a delimited Caused by section holding the cause stack; the
stack of every error contains the messages of its whole causal chain in
nesting order; and in particular a BusinessRuleError wrapping a
NotFoundError wrapping a TechnicalError wrapping a native error lists all
four messages in nesting order. -/
theorem c7_cause_chain_rendering :
    (∀ (k : EKind) (m : String) (c : Option ErrObj) (o : Option String),
      (ErrObj.mk k m c o).cause = c) ∧
    (∀ e c : ErrObj, e.cause = some c →
      ∃ pre : String, e.stack = pre ++ ("\nCaused by: " ++ c.stack)) ∧
    (∀ e : ErrObj,
      appearsInOrder e.stack.data ((chainMessages e).map String.data)) ∧
    (∀ m1 r i m3 mn : String,
      chainMessages (mkBusinessRuleError m1 (some (mkNotFoundError r (some i)
          (some (mkTechnicalError m3 (some (mkNativeError mn))))))) =
        ["Business Rule Violation: " ++ m1,
          "Not Found: " ++ r ++ " with id \x27" ++ i ++ "\x27 could not be found",
          "Technical Error: " ++ m3,
          mn]) := by
  refine ⟨fun k m c o => rfl, ?_, stack_contains_chain, fun m1 r i m3 mn => rfl⟩
  intro e c hc
  cases e with
  | mk k m c0 o =>
    cases c0 with
    | none => exact absurd hc (by simp [ErrObj.cause])
    | some d =>
      have : d = c := by
        have := hc
        simp [ErrObj.cause] at this
        exact this
      subst this
      exact ⟨k.className ++ ": " ++ m, rfl⟩

/-- Witness for C7: the concrete four-error chain of the test suite - its
second conjunct applies at a BusinessRuleError whose cause is present,
yielding the delimited rendering. -/
theorem c7_cause_chain_rendering_witness :
    ∃ pre : String,
      (mkBusinessRuleError "Cannot process user request"
          (some (mkNativeError "Network error: connection refused"))).stack =
        pre ++ ("\nCaused by: " ++
          (mkNativeError "Network error: connection refused").stack) :=
  c7_cause_chain_rendering.2.1
    (mkBusinessRuleError "Cannot process user request"
      (some (mkNativeError "Network error: connection refused")))
    (mkNativeError "Network error: connection refused") rfl

/-- C8: the specialized error constructors produce exactly the specified
message strings - the two concrete examples of the spec, and in general
each kind fixes its message template over all constructor arguments. -/
theorem c8_message_templates :
    (mkNotFoundError "User" (some "123") none).message =
      "Not Found: User with id \x27123\x27 could not be found" ∧
    (mkNotFoundError "User" none none).message =
      "Not Found: User could not be found" ∧
    (mkTimeoutError "fetchData" 5000 none).message =
      "Technical Error: Operation \x27fetchData\x27 timed out after 5000ms" ∧
    (∀ (m : String) (c : Option ErrObj), (mkResultError m c).message = m) ∧
    (∀ (d : String) (c : Option ErrObj),
      (mkValidationError d c).message = "Validation Error: " ++ d) ∧
    (∀ (r : String) (c : Option ErrObj),
      (mkNotFoundError r none c).message =
        "Not Found: " ++ r ++ " could not be found") ∧
    (∀ (r i : String) (c : Option ErrObj),
      (mkNotFoundError r (some i) c).message =
        "Not Found: " ++ r ++ " with id \x27" ++ i ++ "\x27 could not be found") ∧
    (∀ c : Option ErrObj,
      (mkUnauthorizedError none c).message =
        "Unauthorized: You are not authorized to perform this operation") ∧
    (∀ (d : String) (c : Option ErrObj),
      (mkUnauthorizedError (some d) c).message = "Unauthorized: " ++ d) ∧
    (∀ (d : String) (c : Option ErrObj),
      (mkBusinessRuleError d c).message = "Business Rule Violation: " ++ d) ∧
    (∀ (d : String) (c : Option ErrObj),
      (mkTechnicalError d c).message = "Technical Error: " ++ d) ∧
    (∀ (op : String) (n : Nat) (c : Option ErrObj),
      (mkTimeoutError op n c).message =
        "Technical Error: Operation \x27" ++ op ++ "\x27 timed out after " ++
          toString n ++ "ms") ∧
    (∀ (r : String) (c : Option ErrObj),
      (mkConcurrencyError r none c).message =
        "Concurrency Error: " ++ r ++ " was modified by another process") ∧
    (∀ (r i : String) (c : Option ErrObj),
      (mkConcurrencyError r (some i) c).message =
        "Concurrency Error: " ++ r ++ " with id \x27" ++ i ++
          "\x27 was modified by another process") ∧
    (∀ (o : Option String) (c : Option ErrObj),
      (mkCancellationError none o c).message =
        "Cancellation: Operation was cancelled") ∧
    (∀ (d : String) (o : Option String) (c : Option ErrObj),
      (mkCancellationError (some d) o c).message = "Cancellation: " ++ d) :=
  ⟨rfl, rfl, rfl, fun _ _ => rfl, fun _ _ => rfl, fun _ _ => rfl,
    fun _ _ _ => rfl, fun _ => rfl, fun _ _ => rfl, fun _ _ => rfl,
    fun _ _ => rfl, fun _ _ _ => rfl, fun _ _ => rfl, fun _ _ _ => rfl,
    fun _ _ => rfl, fun _ _ _ => rfl⟩

/-- C9: the is-a relations of the hierarchy - TimeoutError and
CancellationError are TechnicalError; every specialized kind, TechnicalError
included, is a base ResultError; sibling kinds are unrelated - a
ValidationError is not a NotFoundError and a plain TechnicalError is not a
TimeoutError; and the relations hold for constructed instances. -/
theorem c9_inheritance_relations :
    EKind.isA .timeoutError .technicalError = true ∧
    EKind.isA .cancellationError .technicalError = true ∧
    EKind.isA .validationError .resultError = true ∧
    EKind.isA .notFoundError .resultError = true ∧
    EKind.isA .unauthorizedError .resultError = true ∧
    EKind.isA .businessRuleError .resultError = true ∧
    EKind.isA .technicalError .resultError = true ∧
    EKind.isA .timeoutError .resultError = true ∧
    EKind.isA .concurrencyError .resultError = true ∧
    EKind.isA .cancellationError .resultError = true ∧
    EKind.isA .validationError .notFoundError = false ∧
    EKind.isA .technicalError .timeoutError = false ∧
    EKind.isA .resultError .validationError = false ∧
    (∀ (op : String) (n : Nat) (c : Option ErrObj),
      (mkTimeoutError op n c).kind.isA .technicalError = true) ∧
    (∀ (d o : Option String) (c : Option ErrObj),
      (mkCancellationError d o c).kind.isA .technicalError = true) ∧
    (∀ (d : String) (c : Option ErrObj),
      (mkValidationError d c).kind.isA .notFoundError = false) := by
  refine ⟨by decide, by decide, by decide, by decide, by decide, by decide,
    by decide, by decide, by decide, by decide, by decide, by decide, by decide,
    fun _ _ _ => show EKind.isA .timeoutError .technicalError = true by decide,
    fun _ _ _ => show EKind.isA .cancellationError .technicalError = true by decide,
    fun _ _ => show EKind.isA .validationError .notFoundError = false by decide⟩

/-- C10: every constructed error of every kind is an instance of the
platform native Error type, carries a nonempty stack trace, and has a name
equal to its own concrete class name - in particular a CancellationError is
named CancellationError, not after its TechnicalError parent. -/
theorem c10_native_error_name_stack :
    (∀ k : EKind, EKind.isA k .error = true) ∧
    (∀ e : ErrObj, e.stack ≠ "") ∧
    (∀ (m : String) (c : Option ErrObj),
      (mkResultError m c).name = "ResultError") ∧
    (∀ (d : String) (c : Option ErrObj),
      (mkValidationError d c).name = "ValidationError") ∧
    (∀ (r : String) (i : Option String) (c : Option ErrObj),
      (mkNotFoundError r i c).name = "NotFoundError") ∧
    (∀ (d : Option String) (c : Option ErrObj),
      (mkUnauthorizedError d c).name = "UnauthorizedError") ∧
    (∀ (d : String) (c : Option ErrObj),
      (mkBusinessRuleError d c).name = "BusinessRuleError") ∧
    (∀ (d : String) (c : Option ErrObj),
      (mkTechnicalError d c).name = "TechnicalError") ∧
    (∀ (op : String) (n : Nat) (c : Option ErrObj),
      (mkTimeoutError op n c).name = "TimeoutError") ∧
    (∀ (r : String) (i : Option String) (c : Option ErrObj),
      (mkConcurrencyError r i c).name = "ConcurrencyError") ∧
    (∀ (d o : Option String) (c : Option ErrObj),
      (mkCancellationError d o c).name = "CancellationError") :=
  ⟨by decide, stack_ne_empty, fun _ _ => rfl, fun _ _ => rfl,
    fun _ _ _ => rfl, fun _ _ => rfl, fun _ _ => rfl, fun _ _ => rfl,
    fun _ _ _ => rfl, fun _ _ _ => rfl, fun _ _ _ => rfl⟩

end TsResultMonad
